import Mathlib

/-!
Verification of the collector orchestration and Redfish session-discovery
subsystem of prometheus-hardware-exporter.

The visible source is `prometheus_hardware_exporter/__main__.py`
(`parse_command_line`, `get_collector_registries`, `start_exporter`, `main`);
those functions are embedded directly.  The collaborating modules
(`collector.py`, `exporter.py`, `config.py`) are not part of the visible
source, so the behaviour the spec assigns to them (Exporter scrape
aggregation, DiscoveryCache, SEL interval filtering, run modes) is modelled
from the spec, each such definition marked `Modelled from the spec:` in its
doc comment.
-/

/-- The resolved configuration object (`Config` from `config.py`; its fields
are those constructed in `main` of `__main__.py`).  Immutable after
construction. -/
structure Config where
  port : Nat
  level : String
  enable_collectors : List String
  redfish_host : String
  redfish_username : String
  redfish_password : String
  ipmi_sel_interval : Nat
  redfish_client_timeout : Nat
  redfish_client_max_retry : Nat
  redfish_discover_cache_ttl : Nat
deriving DecidableEq, Repr

/-- A concrete collector instance, one constructor per collector class
imported by `__main__.py`.  `lsiSASControllerCollector` carries the
protocol-generation version discriminant (2 or 3), mirroring
`LSISASControllerCollector(version=..., config=...)`. -/
inductive CollectorInstance where
  | ssaCLICollector (config : Config)
  | ipmiDcmiCollector (config : Config)
  | ipmiSelCollector (config : Config)
  | ipmiSensorsCollector (config : Config)
  | lsiSASControllerCollector (version : Nat) (config : Config)
  | megaRAIDCollector (config : Config)
  | powerEdgeRAIDCollector (config : Config)
  | redfishCollector (config : Config)
deriving DecidableEq, Repr

/-- Embeds `get_collector_registries` from `__main__.py`: the dict literal mapping
the nine collector identity keys to collector instances, in insertion order
(Python dicts preserve insertion order). -/
def get_collector_registries (config : Config) : List (String × CollectorInstance) :=
  [ ("collector.hpe_ssa", CollectorInstance.ssaCLICollector config),
    ("collector.ipmi_dcmi", CollectorInstance.ipmiDcmiCollector config),
    ("collector.ipmi_sel", CollectorInstance.ipmiSelCollector config),
    ("collector.ipmi_sensor", CollectorInstance.ipmiSensorsCollector config),
    ("collector.lsi_sas_2", CollectorInstance.lsiSASControllerCollector 2 config),
    ("collector.lsi_sas_3", CollectorInstance.lsiSASControllerCollector 3 config),
    ("collector.mega_raid", CollectorInstance.megaRAIDCollector config),
    ("collector.poweredge_raid", CollectorInstance.powerEdgeRAIDCollector config),
    ("collector.redfish", CollectorInstance.redfishCollector config) ]

/-- Python `str.lower` on a single character; all strings involved here are
ASCII, for which lowercasing maps A-Z to a-z and fixes the rest. -/
def pyLowerChar (c : Char) : Char :=
  if 'A' ≤ c ∧ c ≤ 'Z' then Char.ofNat (c.toNat + 32) else c

/-- Python `str.lower` (restricted to the ASCII strings occurring here):
lowercases every character of the string. -/
def pyLower (s : String) : String :=
  ⟨s.data.map pyLowerChar⟩

/-- The registration loop of `start_exporter`:
`for name, collector in collector_registries.items(): if name.lower() in
enable_collectors_set: exporter.register(collector)`.  Returns the pairs
registered into the exporter, in registration order. -/
def registeredCollectors (config : Config) : List (String × CollectorInstance) :=
  (get_collector_registries config).filter
    (fun p => decide (pyLower p.1 ∈ config.enable_collectors))

/-- Per-collector outcome of one `collect()` call (spec §3 `CollectResult`):
either the collector's sequence of metric samples, or a failure marker
carrying the collector identity and cause. -/
inductive CollectResult (α : Type) where
  | ok (samples : List α)
  | failure (identity : String) (cause : String)
deriving DecidableEq, Repr

/-- Modelled from the spec: `exporter.py` is absent from src.  §4.4/§7: on a
scrape the Exporter aggregates every collector's returned sample sequence
into one response and reports a collector failure as the absence of that
collector's samples, never as an abort of the scrape (the function is
total on every outcome list). -/
def scrapeResponse {α : Type} : List (CollectResult α) → List α
  | [] => []
  | CollectResult.ok samples :: rest => samples ++ scrapeResponse rest
  | CollectResult.failure _ _ :: rest => scrapeResponse rest

/-- One full scrape: every collector registered by `start_exporter` is
invoked, its `collect()` outcome given by `collect`, and the Exporter
aggregates the outcomes. -/
def exporterScrape {α : Type} (collect : String × CollectorInstance → CollectResult α)
    (config : Config) : List α :=
  scrapeResponse ((registeredCollectors config).map collect)

/-- Modelled from the spec: the DiscoveryCache (§4.3) lives in the absent
collector/cache modules.  Discovery attempts are numbered; `backend i` is
the outcome of attempt `i` (a session handle, or failure).  Starting at
attempt `i` with `n` attempts allowed, try attempts in order and stop at
the first success; returns the outcome and the number of attempts made. -/
def attemptDiscoveryFrom (backend : Nat → Option Nat) (i : Nat) : Nat → Option Nat × Nat
  | 0 => (none, 0)
  | n + 1 =>
    match backend i with
    | some s => (some s, 1)
    | none =>
      let r := attemptDiscoveryFrom backend (i + 1) n
      (r.1, r.2 + 1)

/-- Modelled from the spec (§4.3 step 2): "up to `redfishClientMaxRetry + 1`
attempts ... on the first success" — a full discovery round allows
`maxRetry + 1` attempts starting from attempt 0. -/
def attemptDiscovery (backend : Nat → Option Nat) (maxRetry : Nat) : Option Nat × Nat :=
  attemptDiscoveryFrom backend 0 (maxRetry + 1)

/-- The single-slot discovery cache: at most one live entry
`(sessionHandle, expiresAt)` (spec §3 `DiscoveryCacheEntry`). -/
structure DiscoveryCache where
  entry : Option (Nat × Nat)
deriving DecidableEq, Repr

/-- Outcome of one `getSession()` call: the session (or failure), the cache
state afterwards, and the number of discovery I/O attempts performed. -/
structure GetSessionResult where
  session : Option Nat
  cache : DiscoveryCache
  ioAttempts : Nat
deriving DecidableEq, Repr

/-- Modelled from the spec (§4.3 steps 2-3): a discovery round; on the first
success store `(sessionHandle, expiresAt = now + ttl)` and return it; if
all attempts fail, discard any stale entry and report failure. -/
def rediscover (ttl maxRetry : Nat) (backend : Nat → Option Nat) (now : Nat) :
    GetSessionResult :=
  let r := attemptDiscovery backend maxRetry
  match r.1 with
  | some s => ⟨some s, ⟨some (s, now + ttl)⟩, r.2⟩
  | none => ⟨none, ⟨none⟩, r.2⟩

/-- Modelled from the spec (§4.3 algorithm): `getSession()`.  Step 1: a live
entry (`now < expiresAt`) is returned immediately with no I/O; otherwise a
discovery round runs. -/
def getSession (ttl maxRetry : Nat) (backend : Nat → Option Nat) (now : Nat)
    (st : DiscoveryCache) : GetSessionResult :=
  match st.entry with
  | some (h, expiresAt) =>
    if now < expiresAt then ⟨some h, st, 0⟩
    else rediscover ttl maxRetry backend now
  | none => rediscover ttl maxRetry backend now

/-- Total elapsed time of a discovery round in which attempt `i` took
`dur i` seconds and `attempts` attempts were made. -/
def discoveryElapsed (dur : Nat → Nat) (attempts : Nat) : Nat :=
  ((List.range attempts).map dur).sum

/-- Modelled from the spec: the event-log collector lives in the absent
`collector.py`.  §4.2: it "only considers log records newer than
`now - ipmiSelInterval`" — a record with timestamp `ts` is included iff it
is strictly newer than `now - interval`, i.e. `now < ts + interval`. -/
def selRecordIncluded (now interval ts : Nat) : Bool :=
  decide (now < ts + interval)

/-- The two serving modes of the Exporter (spec §4.4). -/
inductive RunMode where
  | serveForever
  | runOnce
deriving DecidableEq, Repr

/-- Modelled from the spec: `exporter.py` is absent from src.  §4.4: the
Exporter "binds the configured port once at process start; serves
indefinitely until externally terminated; a run-once mode exists for
diagnostic/non-daemon invocation and exits after one collection pass
instead of serving".  In the visible src, `main` reaches `exporter.run`
through `start_exporter(exporter_config)` with `daemon` left at its
default `False`; per the spec (§4.4 first clause and §2 Exporter bullet)
that default entrypoint invocation is the indefinitely serving one, and
the alternate value selects the diagnostic run-once mode. -/
def exporterRun (daemon : Bool) : RunMode :=
  if daemon then RunMode.runOnce else RunMode.serveForever

/-- The `daemon` default of `start_exporter(config, daemon=False)` in
`__main__.py`. -/
def START_EXPORTER_DAEMON_DEFAULT : Bool := false

/-- The run mode of `main`: it calls `start_exporter(exporter_config)` leaving
`daemon` at its default, which `start_exporter` forwards to
`exporter.run(daemon)`. -/
def mainRunMode : RunMode :=
  exporterRun START_EXPORTER_DAEMON_DEFAULT

/-- Observable process state at one lifecycle step: how many times the
scrape port has been bound so far, and whether the process is still
alive. -/
structure ProcState where
  portBinds : Nat
  alive : Bool
deriving DecidableEq, Repr

/-- Modelled from the spec (§4.4 startup/shutdown): the process lifecycle
trace.  At step 0 the process starts and binds the configured port once;
in serve-forever mode every later step serves scrapes with the process
still alive (it never exits on its own); in run-once mode the process
performs its one collection pass and has exited at every later step.  The
port is never bound again after startup in either mode. -/
def lifecycleState (mode : RunMode) : Nat → ProcState
  | 0 => ⟨1, true⟩
  | _ + 1 =>
    match mode with
    | RunMode.serveForever => ⟨1, true⟩
    | RunMode.runOnce => ⟨1, false⟩

/-- The argparse namespace produced by `parse_command_line`, fields in the
order the arguments are added to the parser (which is the insertion order
of `namespace.__dict__`).  The nine `collector.*` store-true flags keep
their dotted argparse destinations, with the dot written `_` in the Lean
field name. -/
structure CLINamespace where
  level : String
  config : String
  port : Nat
  redfish_host : String
  redfish_username : String
  redfish_password : String
  ipmi_sel_interval : Nat
  collector_hpe_ssa : Bool
  collector_ipmi_dcmi : Bool
  collector_ipmi_sel : Bool
  collector_ipmi_sensor : Bool
  collector_lsi_sas_2 : Bool
  collector_lsi_sas_3 : Bool
  collector_mega_raid : Bool
  collector_poweredge_raid : Bool
  collector_redfish : Bool
  redfish_client_timeout : Nat
  redfish_client_max_retry : Nat
  redfish_discover_cache_ttl : Nat
deriving DecidableEq, Repr

/-- The CLI-branch loop of `main`: iterate `namespace.__dict__` in insertion
order and append every attribute name that starts with "collector" and is
truthy.  The only such attributes are the nine dotted collector flags, so
the appended names are exactly the corresponding registry keys. -/
def cliCollectors (ns : CLINamespace) : List String :=
  (if ns.collector_hpe_ssa then ["collector.hpe_ssa"] else []) ++
  (if ns.collector_ipmi_dcmi then ["collector.ipmi_dcmi"] else []) ++
  (if ns.collector_ipmi_sel then ["collector.ipmi_sel"] else []) ++
  (if ns.collector_ipmi_sensor then ["collector.ipmi_sensor"] else []) ++
  (if ns.collector_lsi_sas_2 then ["collector.lsi_sas_2"] else []) ++
  (if ns.collector_lsi_sas_3 then ["collector.lsi_sas_3"] else []) ++
  (if ns.collector_mega_raid then ["collector.mega_raid"] else []) ++
  (if ns.collector_poweredge_raid then ["collector.poweredge_raid"] else []) ++
  (if ns.collector_redfish then ["collector.redfish"] else [])

/-- Modelled from the spec: `DEFAULT_CONFIG` is a constant path imported
from the absent `config.py`.  Its value is immaterial here: `main` consults
it only as `namespace.config or DEFAULT_CONFIG` inside the branch already
guarded by `namespace.config` being truthy, so it is never the selected
path. -/
def DEFAULT_CONFIG : String := "config.yaml"

/-- The config-resolution step of `main` in `__main__.py`.
`Config.load_config` lives in the absent `config.py`, so it is passed in as
a function of the chosen file path.  Python string truthiness: a string is
truthy iff non-empty; `namespace.config or DEFAULT_CONFIG` evaluates to
`namespace.config` when that is truthy, else to `DEFAULT_CONFIG`. -/
def mainConfig (load_config : String → Config) (ns : CLINamespace) : Config :=
  if ns.config ≠ "" then
    load_config (if ns.config ≠ "" then ns.config else DEFAULT_CONFIG)
  else
    { port := ns.port, level := ns.level, enable_collectors := cliCollectors ns,
      redfish_host := ns.redfish_host, redfish_username := ns.redfish_username,
      redfish_password := ns.redfish_password, ipmi_sel_interval := ns.ipmi_sel_interval,
      redfish_client_timeout := ns.redfish_client_timeout,
      redfish_client_max_retry := ns.redfish_client_max_retry,
      redfish_discover_cache_ttl := ns.redfish_discover_cache_ttl }

/-- Injection of collector instances into Nat by constructor tag and version,
ignoring the config; used to show the nine registry values are pairwise
distinct. -/
def collectorCode : CollectorInstance → Nat
  | CollectorInstance.ssaCLICollector _ => 0
  | CollectorInstance.ipmiDcmiCollector _ => 1
  | CollectorInstance.ipmiSelCollector _ => 2
  | CollectorInstance.ipmiSensorsCollector _ => 3
  | CollectorInstance.lsiSASControllerCollector v _ => 4 + v
  | CollectorInstance.megaRAIDCollector _ => 100
  | CollectorInstance.powerEdgeRAIDCollector _ => 101
  | CollectorInstance.redfishCollector _ => 102

/-- A concrete configuration used to instantiate theorems; the numeric values
match the CLI defaults visible in `parse_command_line`, and no collector is
enabled. -/
def sampleConfig : Config :=
  { port := 10000, level := "INFO", enable_collectors := [],
    redfish_host := "127.0.0.1", redfish_username := "", redfish_password := "",
    ipmi_sel_interval := 300, redfish_client_timeout := 15,
    redfish_client_max_retry := 1, redfish_discover_cache_ttl := 86400 }

/-- A configuration whose enabled-collector set holds only a case-variant of
the known identifier "collector.redfish". -/
def caseVariantConfig : Config :=
  { sampleConfig with enable_collectors := ["Collector.Redfish"] }

/-- A configuration whose enabled-collector set mixes a valid identifier with
an unknown one. -/
def mixedConfig : Config :=
  { sampleConfig with enable_collectors := ["collector.redfish", "collector.bogus"] }

/-- A concrete argparse namespace with a non-empty config path and arbitrary
values everywhere else. -/
def sampleNamespace : CLINamespace :=
  { level := "DEBUG", config := "/etc/exporter-config.yaml", port := 9999,
    redfish_host := "10.0.0.7", redfish_username := "admin",
    redfish_password := "secret", ipmi_sel_interval := 60,
    collector_hpe_ssa := true, collector_ipmi_dcmi := true,
    collector_ipmi_sel := false, collector_ipmi_sensor := true,
    collector_lsi_sas_2 := false, collector_lsi_sas_3 := true,
    collector_mega_raid := false, collector_poweredge_raid := true,
    collector_redfish := true, redfish_client_timeout := 3,
    redfish_client_max_retry := 7, redfish_discover_cache_ttl := 120 }

/-- Every key of the collector registry is already lowercase, so Python's
`name.lower()` leaves it unchanged. -/
theorem pyLower_registry_keys (c : Config) :
    ∀ p ∈ get_collector_registries c, pyLower p.1 = p.1 := by
  intro p hp
  simp only [get_collector_registries, List.mem_cons, List.not_mem_nil, or_false] at hp
  rcases hp with h | h | h | h | h | h | h | h | h <;> subst h <;> rfl

/-- With an always-failing backend, a discovery round starting anywhere uses
its whole attempt budget and fails. -/
theorem attemptDiscoveryFrom_all_fail (backend : Nat → Option Nat)
    (hfail : ∀ i, backend i = none) :
    ∀ n i, attemptDiscoveryFrom backend i n = (none, n) := by
  intro n
  induction n with
  | zero => intro i; rfl
  | succ k ih =>
    intro i
    simp [attemptDiscoveryFrom, hfail i, ih (i + 1)]

/-- If every attempt takes at most `timeout` seconds, `n` attempts take at
most `n * timeout` seconds in total. -/
theorem discoveryElapsed_le (dur : Nat → Nat) (timeout : Nat)
    (h : ∀ i, dur i ≤ timeout) : ∀ n, discoveryElapsed dur n ≤ n * timeout := by
  intro n
  induction n with
  | zero => simp [discoveryElapsed]
  | succ k ih =>
    have hstep : discoveryElapsed dur (k + 1) = discoveryElapsed dur k + dur k := by
      simp [discoveryElapsed, List.range_succ]
    rw [hstep, Nat.succ_mul]
    exact Nat.add_le_add ih (h k)

/-- C8: the collector-identity mapping built at startup has globally unique
string keys, one per known hardware subsystem (nine keys), each mapping to a
distinct collector instance, and the dual-generation SAS controller is
represented by the two keys collector.lsi_sas_2 / collector.lsi_sas_3 whose
instances differ only in the version discriminant (2 vs 3). -/
theorem C8_registry_key_uniqueness (c : Config) :
    ((get_collector_registries c).map Prod.fst).Nodup ∧
    ((get_collector_registries c).map Prod.fst).length = 9 ∧
    ((get_collector_registries c).map Prod.snd).Nodup ∧
    ("collector.lsi_sas_2", CollectorInstance.lsiSASControllerCollector 2 c)
      ∈ get_collector_registries c ∧
    ("collector.lsi_sas_3", CollectorInstance.lsiSASControllerCollector 3 c)
      ∈ get_collector_registries c := by
  refine ⟨?_, ?_, ?_, ?_, ?_⟩
  · simp only [get_collector_registries, List.map]
    decide
  · simp [get_collector_registries]
  · apply List.Nodup.of_map collectorCode
    simp only [get_collector_registries, List.map, collectorCode]
    decide
  · simp [get_collector_registries]
  · simp [get_collector_registries]

/-- C8 witness: the registry invariants at a concrete configuration. -/
theorem C8_registry_key_uniqueness_witness :
    ((get_collector_registries sampleConfig).map Prod.fst).Nodup ∧
    ((get_collector_registries sampleConfig).map Prod.fst).length = 9 ∧
    ((get_collector_registries sampleConfig).map Prod.snd).Nodup ∧
    ("collector.lsi_sas_2", CollectorInstance.lsiSASControllerCollector 2 sampleConfig)
      ∈ get_collector_registries sampleConfig ∧
    ("collector.lsi_sas_3", CollectorInstance.lsiSASControllerCollector 3 sampleConfig)
      ∈ get_collector_registries sampleConfig :=
  C8_registry_key_uniqueness sampleConfig

/-- C4: when the enabled-collector set mixes identifiers that are registry
keys with identifiers that are not, `start_exporter` registers exactly the
registry entries named by the valid identifiers; the unknown identifiers are
silently ignored (registration is a total function, so no error is raised). -/
theorem C4_unknown_identifiers_ignored (c : Config) (valid unknown : List String)
    (henable : c.enable_collectors = valid ++ unknown)
    (hvalid : ∀ x ∈ valid, x ∈ (get_collector_registries c).map Prod.fst)
    (hunknown : ∀ x ∈ unknown, x ∉ (get_collector_registries c).map Prod.fst) :
    registeredCollectors c =
      (get_collector_registries c).filter (fun p => decide (p.1 ∈ valid)) := by
  unfold registeredCollectors
  apply List.filter_congr
  intro p hp
  have hlow : pyLower p.1 = p.1 := pyLower_registry_keys c p hp
  have hkey : p.1 ∈ (get_collector_registries c).map Prod.fst :=
    List.mem_map_of_mem Prod.fst hp
  have hnu : p.1 ∉ unknown := fun hx => hunknown p.1 hx hkey
  rw [hlow, henable, decide_eq_decide]
  simp [List.mem_append, hnu]

/-- C4 witness: with the valid identifier collector.redfish and the unknown
identifier collector.bogus both enabled, exactly the redfish collector is
registered. -/
theorem C4_unknown_identifiers_ignored_witness :
    registeredCollectors mixedConfig =
      (get_collector_registries mixedConfig).filter
        (fun p => decide (p.1 ∈ ["collector.redfish"])) :=
  C4_unknown_identifiers_ignored mixedConfig ["collector.redfish"] ["collector.bogus"]
    rfl (by decide) (by decide)

/-- C10: registration compares each registry key lowered (and every key is
already lowercase) against the unmodified enabled-collector set, so an
enabled entry `e` that differs from a known identifier `k` only in letter
case matches no key, and as long as `k` itself is absent from the set the
collector with key `k` is silently not registered. -/
theorem C10_case_sensitive_matching (c : Config) (e k : String)
    (hk : k ∈ (get_collector_registries c).map Prod.fst)
    (he : e ∈ c.enable_collectors)
    (hlow : pyLower e = k)
    (hne : e ≠ k)
    (hnot : k ∉ c.enable_collectors) :
    (∀ p ∈ get_collector_registries c, pyLower p.1 = p.1) ∧
    ∀ inst, (k, inst) ∉ registeredCollectors c := by
  refine ⟨pyLower_registry_keys c, ?_⟩
  intro inst hmem
  have hcond := List.of_mem_filter hmem
  have hreg := List.mem_of_mem_filter hmem
  have hlowk : pyLower k = k := pyLower_registry_keys c (k, inst) hreg
  rw [show ((k, inst) : String × CollectorInstance).1 = k from rfl, hlowk,
    decide_eq_true_eq] at hcond
  exact hnot hcond

/-- C10 witness: enabling only the case-variant "Collector.Redfish" leaves
the redfish collector unregistered. -/
theorem C10_case_sensitive_matching_witness :
    (∀ p ∈ get_collector_registries caseVariantConfig, pyLower p.1 = p.1) ∧
    ∀ inst, ("collector.redfish", inst) ∉ registeredCollectors caseVariantConfig :=
  C10_case_sensitive_matching caseVariantConfig "Collector.Redfish" "collector.redfish"
    (by decide) (by decide) (by decide) (by decide) (by decide)

/-- C9: whenever a non-empty --config path is supplied, `main` builds the
Config entirely from `Config.load_config` on that file; the result mentions
no other field of the parsed command line, so every other CLI value is
ignored. -/
theorem C9_config_file_overrides_cli (load_config : String → Config)
    (ns : CLINamespace) (h : ns.config ≠ "") :
    mainConfig load_config ns = load_config ns.config := by
  unfold mainConfig
  simp [h]

/-- C9 witness: with a concrete namespace carrying a config path plus
non-default values for every other flag, the resolved Config is exactly the
loaded one. -/
theorem C9_config_file_overrides_cli_witness :
    mainConfig (fun _ => sampleConfig) sampleNamespace =
      (fun _ => sampleConfig) sampleNamespace.config :=
  C9_config_file_overrides_cli (fun _ => sampleConfig) sampleNamespace (by decide)

/-- C6: with an empty enabled-collector set, `start_exporter` registers no
collector, and a scrape still succeeds with zero samples (the scrape
function is total and returns the empty sample list). -/
theorem C6_empty_enabled_set (c : Config) (h : c.enable_collectors = []) :
    registeredCollectors c = [] ∧
    ∀ (α : Type) (collect : String × CollectorInstance → CollectResult α),
      exporterScrape collect c = [] := by
  have hreg : registeredCollectors c = [] := by
    simp [registeredCollectors, h]
  refine ⟨hreg, ?_⟩
  intro α collect
  rw [exporterScrape, hreg]
  rfl

/-- C6 witness: the empty-enabled-set configuration registers nothing and a
concrete scrape over it yields zero samples. -/
theorem C6_empty_enabled_set_witness :
    registeredCollectors sampleConfig = [] ∧
    exporterScrape (fun _ => CollectResult.ok [1, 2]) sampleConfig = ([] : List Nat) :=
  ⟨(C6_empty_enabled_set sampleConfig rfl).1,
    (C6_empty_enabled_set sampleConfig rfl).2 Nat (fun _ => CollectResult.ok [1, 2])⟩

/-- C1: collector failure isolation — for every list of per-collector
outcomes, each succeeding collector's full sample sequence embeds (as a
sublist, order and multiplicity preserved) in the aggregated scrape
response, regardless of how many other collectors failed; the aggregation
is total, so no post-startup collector failure aborts the scrape. -/
theorem C1_collector_isolation {α : Type} (results : List (CollectResult α))
    (samples : List α) (hmem : CollectResult.ok samples ∈ results) :
    List.Sublist samples (scrapeResponse results) := by
  induction results with
  | nil => cases hmem
  | cons r rest ih =>
    rcases List.mem_cons.mp hmem with hhead | htail
    · subst hhead
      rw [scrapeResponse]
      exact List.sublist_append_left samples (scrapeResponse rest)
    · have hsub := ih htail
      cases r with
      | ok s => exact hsub.trans (List.sublist_append_right s (scrapeResponse rest))
      | failure i cause => exact hsub

/-- C1 witness: with one collector failing between two succeeding ones, the
first succeeding collector's full sample set appears in the response. -/
theorem C1_collector_isolation_witness :
    List.Sublist [10, 20]
      (scrapeResponse
        [CollectResult.ok [10, 20],
         CollectResult.failure "collector.redfish" "discovery exhausted",
         CollectResult.ok [30]]) :=
  C1_collector_isolation
    [CollectResult.ok [10, 20],
     CollectResult.failure "collector.redfish" "discovery exhausted",
     CollectResult.ok [30]]
    [10, 20] (by decide)

/-- C2: with `redfishClientMaxRetry = R` and a backend failing on every
attempt, a `getSession()` call with no live cache entry (empty slot or an
already-expired entry) reports failure after exactly `R + 1` discovery
attempts, and when each attempt lasts at most `redfishClientTimeout`
seconds the total elapsed discovery time is at most
`(R + 1) * redfishClientTimeout`. -/
theorem C2_retry_bound (R timeout ttl now : Nat) (backend : Nat → Option Nat)
    (dur : Nat → Nat) (st : DiscoveryCache)
    (hfail : ∀ i, backend i = none)
    (hnolive : st.entry = none ∨ ∃ h exp, st.entry = some (h, exp) ∧ exp ≤ now)
    (hdur : ∀ i, dur i ≤ timeout) :
    (getSession ttl R backend now st).session = none ∧
    (getSession ttl R backend now st).ioAttempts = R + 1 ∧
    discoveryElapsed dur (getSession ttl R backend now st).ioAttempts ≤
      (R + 1) * timeout := by
  have hred : rediscover ttl R backend now = ⟨none, ⟨none⟩, R + 1⟩ := by
    unfold rediscover attemptDiscovery
    rw [attemptDiscoveryFrom_all_fail backend hfail (R + 1) 0]
  have hget : getSession ttl R backend now st = ⟨none, ⟨none⟩, R + 1⟩ := by
    rcases hnolive with hn | ⟨h, exp, hsome, hle⟩
    · rw [getSession, hn]
      exact hred
    · rw [getSession, hsome]
      exact (if_neg (Nat.not_lt.mpr hle)).trans hred
  rw [hget]
  exact ⟨rfl, rfl, discoveryElapsed_le dur timeout hdur (R + 1)⟩

/-- C2 witness: R = 2, timeout = 15, empty cache slot, every attempt failing
and lasting the full 15 seconds — failure after exactly 3 attempts within
45 seconds. -/
theorem C2_retry_bound_witness :
    (getSession 86400 2 (fun _ => none) 0 ⟨none⟩).session = none ∧
    (getSession 86400 2 (fun _ => none) 0 ⟨none⟩).ioAttempts = 2 + 1 ∧
    discoveryElapsed (fun _ => 15) (getSession 86400 2 (fun _ => none) 0 ⟨none⟩).ioAttempts ≤
      (2 + 1) * 15 :=
  C2_retry_bound 2 15 86400 0 (fun _ => none) (fun _ => 15) ⟨none⟩
    (fun _ => rfl) (Or.inl rfl) (fun _ => Nat.le_refl 15)

/-- C3: after a first `getSession()` call on an empty cache slot performs a
successful discovery at time `t0` (storing expiry `t0 + T`), a second call
at any time `t1` strictly within the TTL window (`t1 < t0 + T`) returns the
same session handle, leaves the cache unchanged, and performs zero
discovery attempts (no additional discovery I/O). -/
theorem C3_ttl_idempotence (T R : Nat) (backend : Nat → Option Nat)
    (t0 t1 h attempts : Nat) (st st1 : DiscoveryCache)
    (hnolive : st.entry = none)
    (hfirst : getSession T R backend t0 st = ⟨some h, st1, attempts⟩)
    (hwithin : t1 < t0 + T) :
    getSession T R backend t1 st1 = ⟨some h, st1, 0⟩ := by
  have hfirst' : rediscover T R backend t0 = ⟨some h, st1, attempts⟩ := by
    rw [getSession, hnolive] at hfirst
    exact hfirst
  rcases hval : attemptDiscovery backend R with ⟨ores, cnt⟩
  rw [rediscover, hval] at hfirst'
  cases ores with
  | none => exact absurd (congrArg GetSessionResult.session hfirst') (by simp)
  | some s =>
    have hs : s = h := by
      have := congrArg GetSessionResult.session hfirst'
      simpa using this
    have hcache : st1 = ⟨some (s, t0 + T)⟩ := by
      have := congrArg GetSessionResult.cache hfirst'
      simpa using this.symm
    subst hs
    rw [getSession, hcache]
    simp [hwithin, hcache]

/-- C3 witness: discovery at time 0 with TTL 86400 stores handle 42; a second
call at time 100 returns handle 42 from the cache with zero attempts. -/
theorem C3_ttl_idempotence_witness :
    getSession 86400 1 (fun _ => some 42) 100 ⟨some (42, 86400)⟩ =
      ⟨some 42, ⟨some (42, 86400)⟩, 0⟩ :=
  C3_ttl_idempotence 86400 1 (fun _ => some 42) 0 100 42 1 ⟨none⟩ ⟨some (42, 86400)⟩
    rfl (by decide) (by decide)

/-- C7: the event-log collector includes exactly the records strictly newer
than `now - ipmiSelInterval`: a record exactly `ipmiSelInterval` seconds old
is excluded, a record one second younger is included, and in general a
record with timestamp `ts` is included iff `now - ipmiSelInterval < ts`. -/
theorem C7_sel_interval_boundary (now interval : Nat)
    (hpos : 0 < interval) (hge : interval ≤ now) :
    selRecordIncluded now interval (now - interval) = false ∧
    selRecordIncluded now interval (now - interval + 1) = true ∧
    ∀ ts, selRecordIncluded now interval ts = true ↔ now - interval < ts := by
  refine ⟨?_, ?_, fun ts => ?_⟩
  · simp only [selRecordIncluded, decide_eq_false_iff_not]
    omega
  · simp only [selRecordIncluded, decide_eq_true_eq]
    omega
  · simp only [selRecordIncluded, decide_eq_true_eq]
    omega

/-- C7 witness: with now = 1000 and interval = 300, the record stamped 700
(exactly 300 seconds old) is excluded and the record stamped 701 is
included. -/
theorem C7_sel_interval_boundary_witness :
    selRecordIncluded 1000 300 (1000 - 300) = false ∧
    selRecordIncluded 1000 300 (1000 - 300 + 1) = true ∧
    ∀ ts, selRecordIncluded 1000 300 ts = true ↔ 1000 - 300 < ts :=
  C7_sel_interval_boundary 1000 300 (by decide) (by decide)

/-- C5: started through the entrypoint, the exporter runs in the
indefinitely-serving mode — the port is bound exactly once at process start
and the process stays alive at every step — while the separate run-once
mode (the non-default `daemon` argument) has exited at every step after its
single collection pass. -/
theorem C5_default_serving_lifecycle :
    mainRunMode = RunMode.serveForever ∧
    (∀ t, (lifecycleState mainRunMode t).portBinds = 1) ∧
    (∀ t, (lifecycleState mainRunMode t).alive = true) ∧
    exporterRun true = RunMode.runOnce ∧
    (∀ t, (lifecycleState RunMode.runOnce (t + 1)).alive = false) := by
  refine ⟨rfl, ?_, ?_, rfl, ?_⟩
  · intro t; cases t <;> rfl
  · intro t; cases t <;> rfl
  · intro t; rfl
